import Mathlib

/-!
Shallow embedding of the `sensor_fusion_exercise` repository (a two-camera
sensor-fusion pipeline) and verification of its specification.

Python floats are modelled as real numbers; Python exceptions (KeyError,
IndexError, TypeError) are modelled with `Except String`.  Machine `int`
pixel values are modelled as `ℤ` (they are only combined via true division
and float arithmetic, which is real arithmetic here).
-/

set_option maxHeartbeats 1000000
set_option linter.unnecessarySeqFocus false

namespace SensorFusion

open Real

/-- `utils.LocationNE`: location in north-east coordinates on a flat surface. -/
structure LocationNE where
  north : ℝ
  east : ℝ

/-- `utils.LocationNE.null`: the "undefined" initial location. -/
def LocationNE.null : LocationNE := { north := 0, east := 0 }

/-- `object_recognition.BoundingBox`: pixel-space axis-aligned rectangle
(`x`, `y` is the top-left corner). -/
structure BoundingBox where
  x : ℤ
  y : ℤ
  width : ℤ
  height : ℤ
deriving Repr, DecidableEq

/-- `object_recognition.IdentifiedObject`: a detection. -/
structure IdentifiedObject where
  bounding_box : BoundingBox
  class_name : String
  object_location_north_east : LocationNE

/-- `utils.OBJECT_PRIORS_WIDTH`: the class-label → real-world width table,
`{"tank": 7.0, "car": 3.5}`.  A Python dict lookup that can miss is an
`Option`; `none` corresponds to a `KeyError` at the call site. -/
def OBJECT_PRIORS_WIDTH : String → Option ℝ :=
  fun c => if c = "tank" then some 7 else if c = "car" then some 3.5 else none

/-- `sensor.CameraConfig`. -/
structure CameraConfig where
  image_width : ℕ
  image_height : ℕ
  fov_horizontal : ℝ
  fov_vertical : ℝ

/-- `sensor.Frame`: the output of a camera.  The `image` array is a zero
array of shape `H × W × 3`; only its shape matters to the core, so the frame
carries the two shape entries.  `imageShape1` is `frame.image.shape[1]`,
i.e. the pixel width. -/
structure Frame where
  imageShape0 : ℕ
  imageShape1 : ℕ
  fov_horizontal : ℝ
  fov_vertical : ℝ

/-- `sensor.MockCamera` (the only `Sensor` implementation): fixed location,
bearing (degrees, 0 = north, 90 = east) and id. -/
structure Sensor where
  config : CameraConfig
  location_north_east : LocationNE
  bearing : ℝ
  sensor_id : ℤ

/-- `MockCamera.next_tick`: builds a zero image of shape
`(image_height, image_width, 3)` and wraps it in a `Frame`. -/
def Sensor.next_tick (s : Sensor) : Frame :=
  { imageShape0 := s.config.image_height
    imageShape1 := s.config.image_width
    fov_horizontal := s.config.fov_horizontal
    fov_vertical := s.config.fov_vertical }

/-- `np.deg2rad`. -/
noncomputable def deg2rad (x : ℝ) : ℝ := x * Real.pi / 180

/-- `main_IDE.monocular_distance_from_object_prior`.
`frame.image.shape[1]` is the pixel width; a missing class in
`OBJECT_PRIORS_WIDTH` raises `KeyError`. -/
noncomputable def monocular_distance_from_object_prior
    (identified_object : IdentifiedObject) (frame : Frame) : Except String ℝ :=
  match OBJECT_PRIORS_WIDTH identified_object.class_name with
  | none => .error "KeyError"
  | some prior =>
      .ok (prior / (2 * Real.tan (deg2rad
        ((identified_object.bounding_box.width : ℝ) / (frame.imageShape1 : ℝ)
          * frame.fov_horizontal) / 2)))

/-- `MockObjectRecognition.bearing_and_distance_to_north_east`. -/
noncomputable def bearing_and_distance_to_north_east
    (sensor : Sensor) (frame : Frame) (identified_object : IdentifiedObject)
    (object_distance_wrt_sensor : ℝ) : LocationNE :=
  let center_pixel_x_bbox : ℝ :=
    (identified_object.bounding_box.x : ℝ) + (identified_object.bounding_box.width : ℝ) / 2
  let relative_center_x_bbox := center_pixel_x_bbox / (frame.imageShape1 : ℝ)
  let delta_from_sensor_bearing :=
    relative_center_x_bbox * frame.fov_horizontal - frame.fov_horizontal / 2
  let combined_bearing := sensor.bearing + delta_from_sensor_bearing
  { north := object_distance_wrt_sensor * Real.cos (deg2rad combined_bearing) +
      sensor.location_north_east.north
    east := object_distance_wrt_sensor * Real.sin (deg2rad combined_bearing) +
      sensor.location_north_east.east }

/-- A Python `for` loop that builds a list and can raise: apply `f` to each
element in order, propagating the first error. -/
def mapExcept (f : α → Except String β) : List α → Except String (List β)
  | [] => .ok []
  | a :: as => do
      let b ← f a
      let bs ← mapExcept f as
      pure (b :: bs)

/-- `MockObjectRecognition.identify_and_localise`: for every ground-truth
object of the sensor, estimate its distance and overwrite its location with
the projected north-east location.  `self._gt_objects.get(id)` returning
`None` makes the `for` loop raise a `TypeError`; a `KeyError` from the
distance estimator propagates. -/
noncomputable def identify_and_localise
    (gt_objects : ℤ → Option (List IdentifiedObject))
    (frame : Frame) (sensor : Sensor) : Except String (List IdentifiedObject) :=
  match gt_objects sensor.sensor_id with
  | none => .error "TypeError"
  | some objs =>
      mapExcept (fun o => do
        let d ← monocular_distance_from_object_prior o frame
        pure { o with object_location_north_east :=
          bearing_and_distance_to_north_east sensor frame o d }) objs

/-- The inner `distance_metric` of `main_IDE.match_and_fuse_identified_objects`:
planar Euclidean distance of the two projected locations. -/
noncomputable def distance_metric (object1 object2 : IdentifiedObject) : ℝ :=
  Real.sqrt
    ((object2.object_location_north_east.north - object1.object_location_north_east.north) ^ 2
      + (object2.object_location_north_east.east - object1.object_location_north_east.east) ^ 2)

/-- The cost matrix of `match_and_fuse_identified_objects`: starts as
`np.zeros((2, 2))` and cell `(i, j)` is written iff both lists reach index
`i` resp. `j` (rows = sensor 1, columns = sensor 2); unwritten cells stay 0. -/
noncomputable def costMatrix (sensor_1_objects sensor_2_objects : List IdentifiedObject)
    (i j : ℕ) : ℝ :=
  match sensor_1_objects[i]?, sensor_2_objects[j]? with
  | some o1, some o2 => distance_metric o1 o2
  | _, _ => 0

/-- Modelled from the spec: `scipy.optimize.linear_sum_assignment` (an external
dependency, not part of this repository) solves the minimum-total-cost
one-to-one assignment; on the 2×2 matrices used here it returns the row
indices `[0, 1]` with the column indices of the cheaper of the two complete
assignments (the diagonal `[(0,0), (1,1)]` or the anti-diagonal
`[(0,1), (1,0)]`). -/
noncomputable def linear_sum_assignment (cost : ℕ → ℕ → ℝ) : List (ℕ × ℕ) :=
  if cost 0 0 + cost 1 1 ≤ cost 0 1 + cost 1 0 then [(0, 0), (1, 1)]
  else [(0, 1), (1, 0)]

/-- Total cost of a row/column pairing under a cost matrix. -/
noncomputable def pairs_cost (cost : ℕ → ℕ → ℝ) (pairs : List (ℕ × ℕ)) : ℝ :=
  (pairs.map (fun rc => cost rc.1 rc.2)).sum

/-- Python list indexing `l[i]`: `IndexError` when out of range. -/
def lookupIdx (l : List α) (i : ℕ) : Except String α :=
  match l[i]? with
  | some a => .ok a
  | none => .error "IndexError"

/-- The fusion step of the loop body: the fused detection is sensor 1's
record (`s1_object`) with its location overwritten by the component-wise
average of both locations. -/
noncomputable def fusePair (s1_object s2_object : IdentifiedObject) : IdentifiedObject :=
  { s1_object with object_location_north_east :=
      { north := (s1_object.object_location_north_east.north
          + s2_object.object_location_north_east.north) / 2
        east := (s1_object.object_location_north_east.east
          + s2_object.object_location_north_east.east) / 2 } }

/-- One iteration of the fusion loop: index both lists (possible
`IndexError`) and fuse. -/
noncomputable def fuse_rowcol (sensor_1_objects sensor_2_objects : List IdentifiedObject)
    (rc : ℕ × ℕ) : Except String IdentifiedObject := do
  let s1_object ← lookupIdx sensor_1_objects rc.1
  let s2_object ← lookupIdx sensor_2_objects rc.2
  pure (fusePair s1_object s2_object)

/-- `main_IDE.match_and_fuse_identified_objects`.  The mapping is indexed with
the literal keys `1` and `2` (`KeyError` when absent); writing the hard-coded
2×2 cost matrix raises `IndexError` as soon as a list has more than two
detections; the loop over the assignment raises `IndexError` when a list has
fewer than two. -/
noncomputable def match_and_fuse_identified_objects
    (sensor_object_mapping : ℤ → Option (List IdentifiedObject)) :
    Except String (List IdentifiedObject) :=
  match sensor_object_mapping 1 with
  | none => .error "KeyError"
  | some sensor_1_objects =>
    match sensor_object_mapping 2 with
    | none => .error "KeyError"
    | some sensor_2_objects =>
      if 2 < sensor_1_objects.length ∨ 2 < sensor_2_objects.length then
        .error "IndexError"
      else
        mapExcept (fuse_rowcol sensor_1_objects sensor_2_objects)
          (linear_sum_assignment (costMatrix sensor_1_objects sensor_2_objects))

section Scenario

/-- The `__main__` camera config of `main_IDE.py`. -/
def camera_cfg : CameraConfig :=
  { image_width := 1920, image_height := 1080, fov_horizontal := 40, fov_vertical := 22.5 }

/-- Sensor 1 of the reference scenario: at the origin, bearing 26.6°. -/
def sensor_1 : Sensor :=
  { config := camera_cfg, location_north_east := { north := 0, east := 0 }
    bearing := 26.6, sensor_id := 1 }

/-- Sensor 2 of the reference scenario: at (0, 50), bearing 0°. -/
def sensor_2 : Sensor :=
  { config := camera_cfg, location_north_east := { north := 0, east := 50 }
    bearing := 0, sensor_id := 2 }

/-- Sensor 1's ground-truth tank detection. -/
def gtT1 : IdentifiedObject :=
  { bounding_box := { x := 880, y := 500, width := 180, height := 100 }
    class_name := "tank", object_location_north_east := LocationNE.null }

/-- Sensor 1's ground-truth car detection. -/
def gtC1 : IdentifiedObject :=
  { bounding_box := { x := 800, y := 500, width := 60, height := 100 }
    class_name := "car", object_location_north_east := LocationNE.null }

/-- Sensor 2's ground-truth car detection. -/
def gtC2 : IdentifiedObject :=
  { bounding_box := { x := 1200, y := 500, width := 70, height := 100 }
    class_name := "car", object_location_north_east := LocationNE.null }

/-- Sensor 2's ground-truth tank detection. -/
def gtT2 : IdentifiedObject :=
  { bounding_box := { x := 860, y := 500, width := 180, height := 100 }
    class_name := "tank", object_location_north_east := LocationNE.null }

/-- The `ground_truth_objects` dict of `main_IDE.py`. -/
def ground_truth_objects : ℤ → Option (List IdentifiedObject) :=
  fun k =>
    if k = 1 then some [gtT1, gtC1]
    else if k = 2 then some [gtC2, gtT2]
    else none

/-- The estimator's output for the two tank boxes (width 180 px). -/
noncomputable def dT : ℝ :=
  7 / (2 * Real.tan (deg2rad (((180 : ℤ) : ℝ) / ((1920 : ℕ) : ℝ) * 40) / 2))

/-- The estimator's output for sensor 1's car box (width 60 px). -/
noncomputable def dC1 : ℝ :=
  3.5 / (2 * Real.tan (deg2rad (((60 : ℤ) : ℝ) / ((1920 : ℕ) : ℝ) * 40) / 2))

/-- The estimator's output for sensor 2's car box (width 70 px). -/
noncomputable def dC2 : ℝ :=
  3.5 / (2 * Real.tan (deg2rad (((70 : ℤ) : ℝ) / ((1920 : ℕ) : ℝ) * 40) / 2))

/-- Sensor 1's projected tank location. -/
noncomputable def locT1 : LocationNE :=
  bearing_and_distance_to_north_east sensor_1 (Sensor.next_tick sensor_1) gtT1 dT

/-- Sensor 1's projected car location. -/
noncomputable def locC1 : LocationNE :=
  bearing_and_distance_to_north_east sensor_1 (Sensor.next_tick sensor_1) gtC1 dC1

/-- Sensor 2's projected car location. -/
noncomputable def locC2 : LocationNE :=
  bearing_and_distance_to_north_east sensor_2 (Sensor.next_tick sensor_2) gtC2 dC2

/-- Sensor 2's projected tank location. -/
noncomputable def locT2 : LocationNE :=
  bearing_and_distance_to_north_east sensor_2 (Sensor.next_tick sensor_2) gtT2 dT

/-- Sensor 1's localised tank detection. -/
noncomputable def objT1 : IdentifiedObject := { gtT1 with object_location_north_east := locT1 }

/-- Sensor 1's localised car detection. -/
noncomputable def objC1 : IdentifiedObject := { gtC1 with object_location_north_east := locC1 }

/-- Sensor 2's localised car detection. -/
noncomputable def objC2 : IdentifiedObject := { gtC2 with object_location_north_east := locC2 }

/-- Sensor 2's localised tank detection. -/
noncomputable def objT2 : IdentifiedObject := { gtT2 with object_location_north_east := locT2 }

/-- `FusionStation._next_tick` for the reference scenario: the
sensor-id → localised-detections mapping built from both sensors. -/
noncomputable def scenario_mapping : ℤ → Option (List IdentifiedObject) :=
  fun k =>
    if k = 1 then
      (identify_and_localise ground_truth_objects (Sensor.next_tick sensor_1) sensor_1).toOption
    else if k = 2 then
      (identify_and_localise ground_truth_objects (Sensor.next_tick sensor_2) sensor_2).toOption
    else none

end Scenario

/-- `Except.ok`-ness as a Boolean (whether a Python call returned normally). -/
def is_ok : Except String α → Bool
  | .ok _ => true
  | .error _ => false

/-- Helper: the estimator's closed form when the class has a prior. -/
theorem monocular_distance_eq (o : IdentifiedObject) (f : Frame) (P : ℝ)
    (h : OBJECT_PRIORS_WIDTH o.class_name = some P) :
    monocular_distance_from_object_prior o f =
      .ok (P / (2 * Real.tan (deg2rad
        ((o.bounding_box.width : ℝ) / (f.imageShape1 : ℝ) * f.fov_horizontal) / 2))) := by
  unfold monocular_distance_from_object_prior
  rw [h]

/-- Helper: every width in the prior table is positive. -/
theorem prior_pos {c : String} {P : ℝ} (h : OBJECT_PRIORS_WIDTH c = some P) : 0 < P := by
  unfold OBJECT_PRIORS_WIDTH at h
  split_ifs at h <;> injection h with h <;> rw [h.symm] <;> norm_num

/-- C1: for every detection whose class label is in the size-prior table and
every frame, `monocular_distance_from_object_prior` returns
`prior_width(class) / (2 * tan(deg2rad(bbox_width_px / image_width_px * horizontal_fov_degrees) / 2))`,
where `image_width_px` is the frame image's width dimension (`shape[1]`). -/
theorem monocular_distance_formula (o : IdentifiedObject) (f : Frame) (P : ℝ)
    (h : OBJECT_PRIORS_WIDTH o.class_name = some P) :
    monocular_distance_from_object_prior o f =
      .ok (P / (2 * Real.tan (deg2rad
        ((o.bounding_box.width : ℝ) / (f.imageShape1 : ℝ) * f.fov_horizontal) / 2))) :=
  monocular_distance_eq o f P h

/-- Witness for C1 at the scenario's tank detection and frame. -/
theorem monocular_distance_formula_witness :
    OBJECT_PRIORS_WIDTH "tank" = some 7 ∧
    monocular_distance_from_object_prior
      { bounding_box := { x := 880, y := 500, width := 180, height := 100 }
        class_name := "tank", object_location_north_east := LocationNE.null }
      (Sensor.next_tick sensor_1) =
      .ok (7 / (2 * Real.tan (deg2rad
        (((180 : ℤ) : ℝ) / ((1920 : ℕ) : ℝ) * 40) / 2))) := by
  have h : OBJECT_PRIORS_WIDTH "tank" = some 7 := by
    unfold OBJECT_PRIORS_WIDTH
    simp
  exact ⟨h, monocular_distance_formula _ _ _ h⟩

/-- C2: `bearing_and_distance_to_north_east` returns the location whose north
component is `sensor.north + range * cos(deg2rad(sensor.bearing + ((bbox.x + bbox.width/2)
/ image_width * fov_horizontal - fov_horizontal/2)))` and whose east component uses
`sin` of the same combined bearing. -/
theorem bearing_projection_formula (s : Sensor) (f : Frame) (o : IdentifiedObject) (r : ℝ) :
    bearing_and_distance_to_north_east s f o r =
      { north := s.location_north_east.north + r * Real.cos (deg2rad (s.bearing +
          (((o.bounding_box.x : ℝ) + (o.bounding_box.width : ℝ) / 2) / (f.imageShape1 : ℝ)
            * f.fov_horizontal - f.fov_horizontal / 2)))
        east := s.location_north_east.east + r * Real.sin (deg2rad (s.bearing +
          (((o.bounding_box.x : ℝ) + (o.bounding_box.width : ℝ) / 2) / (f.imageShape1 : ℝ)
            * f.fov_horizontal - f.fov_horizontal / 2))) } := by
  unfold bearing_and_distance_to_north_east
  simp only [LocationNE.mk.injEq]
  constructor <;> ring

/-- C6: for a fixed frame (image width `W`, FOV `F` with `0 < F ≤ 180`) and a
class with a prior, the distance estimate is strictly decreasing in the
bounding-box width on `0 < w₁ < w₂ < W`. -/
theorem monocular_distance_decreasing_in_width
    (o1 o2 : IdentifiedObject) (f : Frame) (P : ℝ)
    (hc : o2.class_name = o1.class_name)
    (hP : OBJECT_PRIORS_WIDTH o1.class_name = some P)
    (hF : 0 < f.fov_horizontal) (hF180 : f.fov_horizontal ≤ 180)
    (hw1 : 0 < o1.bounding_box.width)
    (hw12 : o1.bounding_box.width < o2.bounding_box.width)
    (hw2 : o2.bounding_box.width < (f.imageShape1 : ℤ)) :
    ∃ d1 d2, monocular_distance_from_object_prior o1 f = .ok d1 ∧
      monocular_distance_from_object_prior o2 f = .ok d2 ∧ d2 < d1 := by
  have hP2 : OBJECT_PRIORS_WIDTH o2.class_name = some P := hc ▸ hP
  refine ⟨_, _, monocular_distance_eq o1 f P hP, monocular_distance_eq o2 f P hP2, ?_⟩
  have hPpos : 0 < P := prior_pos hP
  set W : ℝ := (f.imageShape1 : ℝ) with hW
  set w1 : ℝ := (o1.bounding_box.width : ℝ) with hw1d
  set w2 : ℝ := (o2.bounding_box.width : ℝ) with hw2d
  have hw1R : 0 < w1 := by
    rw [hw1d]
    exact_mod_cast hw1
  have hw12R : w1 < w2 := by
    rw [hw1d, hw2d]
    exact_mod_cast hw12
  have hw2R : w2 < W := by
    rw [hW, hw2d]
    exact_mod_cast hw2
  have hWpos : 0 < W := lt_trans (lt_trans hw1R hw12R) hw2R
  set a1 : ℝ := deg2rad (w1 / W * f.fov_horizontal) / 2 with ha1
  set a2 : ℝ := deg2rad (w2 / W * f.fov_horizontal) / 2 with ha2
  have hpi := Real.pi_pos
  have ha1pos : 0 < a1 := by
    rw [ha1]
    unfold deg2rad
    have h1 : 0 < w1 / W := div_pos hw1R hWpos
    positivity
  have ha12 : a1 < a2 := by
    rw [ha1, ha2]
    unfold deg2rad
    have h0 : w1 / W < w2 / W := div_lt_div_of_pos_right hw12R hWpos
    have h3 : w1 / W * f.fov_horizontal < w2 / W * f.fov_horizontal :=
      mul_lt_mul_of_pos_right h0 hF
    have h4 := mul_lt_mul_of_pos_right h3 hpi
    linarith
  have ha2lt : a2 < Real.pi / 2 := by
    rw [ha2]
    unfold deg2rad
    have h1 : w2 / W < 1 := (div_lt_one hWpos).mpr hw2R
    have h3 : w2 / W * f.fov_horizontal < 1 * f.fov_horizontal :=
      mul_lt_mul_of_pos_right h1 hF
    have h5 : w2 / W * f.fov_horizontal < 180 := by linarith
    have h6 := mul_lt_mul_of_pos_right h5 hpi
    linarith
  have htan1 : 0 < Real.tan a1 :=
    Real.tan_pos_of_pos_of_lt_pi_div_two ha1pos (lt_trans ha12 ha2lt)
  have htan12 : Real.tan a1 < Real.tan a2 :=
    Real.tan_lt_tan_of_nonneg_of_lt_pi_div_two ha1pos.le ha2lt ha12
  exact div_lt_div_of_pos_left hPpos (by linarith) (by linarith)

/-- Witness for C6: tank boxes of widths 100 < 200 in a 1920-pixel, 40° frame. -/
theorem monocular_distance_decreasing_in_width_witness :
    ("tank" = "tank") ∧ OBJECT_PRIORS_WIDTH "tank" = some 7 ∧
    ((0 : ℝ) < 40 ∧ (40 : ℝ) ≤ 180) ∧ ((0 : ℤ) < 100 ∧ (100 : ℤ) < 200 ∧ (200 : ℤ) < 1920) ∧
    (∃ d1 d2, monocular_distance_from_object_prior
        { bounding_box := { x := 0, y := 0, width := 100, height := 100 }
          class_name := "tank", object_location_north_east := LocationNE.null }
        (Sensor.next_tick sensor_1) = .ok d1 ∧
      monocular_distance_from_object_prior
        { bounding_box := { x := 0, y := 0, width := 200, height := 100 }
          class_name := "tank", object_location_north_east := LocationNE.null }
        (Sensor.next_tick sensor_1) = .ok d2 ∧ d2 < d1) := by
  have h : OBJECT_PRIORS_WIDTH "tank" = some 7 := by
    unfold OBJECT_PRIORS_WIDTH
    simp
  refine ⟨rfl, h, ⟨by norm_num, by norm_num⟩, ⟨by norm_num, by norm_num, by norm_num⟩, ?_⟩
  exact monocular_distance_decreasing_in_width _ _ _ 7 rfl h
    (by norm_num [Sensor.next_tick, sensor_1, camera_cfg])
    (by norm_num [Sensor.next_tick, sensor_1, camera_cfg])
    (by norm_num) (by norm_num)
    (by norm_num [Sensor.next_tick, sensor_1, camera_cfg])

/-- C10: the "undefined" initial location is the concrete origin:
`LocationNE.null = (0, 0)`, and every ground-truth detection of the scenario
carries exactly that location before projection. -/
theorem null_location_is_origin :
    LocationNE.null = { north := 0, east := 0 } ∧
    ground_truth_objects 1 =
      some [{ bounding_box := { x := 880, y := 500, width := 180, height := 100 }
              class_name := "tank", object_location_north_east := { north := 0, east := 0 } },
            { bounding_box := { x := 800, y := 500, width := 60, height := 100 }
              class_name := "car", object_location_north_east := { north := 0, east := 0 } }] ∧
    ground_truth_objects 2 =
      some [{ bounding_box := { x := 1200, y := 500, width := 70, height := 100 }
              class_name := "car", object_location_north_east := { north := 0, east := 0 } },
            { bounding_box := { x := 860, y := 500, width := 180, height := 100 }
              class_name := "tank", object_location_north_east := { north := 0, east := 0 } }] := by
  exact ⟨rfl, rfl, rfl⟩

/-- C7 counterexample: estimating the distance of a zero-width bounding box
does not raise — the call returns normally (in NumPy the float division by
zero yields `inf` with only a warning), refuting "raises GeometryError". -/
theorem zero_width_bbox_returns_normally :
    is_ok (monocular_distance_from_object_prior
      { bounding_box := { x := 0, y := 0, width := 0, height := 0 }
        class_name := "tank", object_location_north_east := LocationNE.null }
      (Sensor.next_tick sensor_1)) = true := rfl

/-- C7 (amended): a class label absent from the size-prior table makes the
estimator fail with a lookup error (`KeyError`); a sensor mapping missing
key 1 or key 2 makes the associator fail with a lookup error (`KeyError`);
but a zero-width bounding box does not raise — the estimator returns
normally (an infinite distance in floating point).  The spec's
`ConfigurationError`/`GeometryError`/`AssociationInputError` types do not
exist in the code. -/
theorem error_handling_amended :
    (∀ (o : IdentifiedObject) (f : Frame), OBJECT_PRIORS_WIDTH o.class_name = none →
      monocular_distance_from_object_prior o f = .error "KeyError") ∧
    (∀ m : ℤ → Option (List IdentifiedObject), (m 1 = none ∨ m 2 = none) →
      match_and_fuse_identified_objects m = .error "KeyError") ∧
    is_ok (monocular_distance_from_object_prior
      { bounding_box := { x := 0, y := 0, width := 0, height := 0 }
        class_name := "tank", object_location_north_east := LocationNE.null }
      (Sensor.next_tick sensor_1)) = true := by
  refine ⟨?_, ?_, rfl⟩
  · intro o f h
    unfold monocular_distance_from_object_prior
    rw [h]
  · intro m h
    rcases h with h | h
    · unfold match_and_fuse_identified_objects
      rw [h]
    · cases hm1 : m 1 with
      | none =>
        unfold match_and_fuse_identified_objects
        rw [hm1]
      | some s1 =>
        unfold match_and_fuse_identified_objects
        rw [hm1, h]

/-- Witness for C7 (amended): an unknown class "bicycle" errors; a mapping
with only key 1 errors. -/
theorem error_handling_amended_witness :
    monocular_distance_from_object_prior
      { bounding_box := { x := 0, y := 0, width := 10, height := 10 }
        class_name := "bicycle", object_location_north_east := LocationNE.null }
      (Sensor.next_tick sensor_1) = .error "KeyError" ∧
    match_and_fuse_identified_objects (fun k => if k = 1 then some [] else none) =
      .error "KeyError" := by
  constructor
  · exact error_handling_amended.1 _ _ (by unfold OBJECT_PRIORS_WIDTH; simp)
  · exact error_handling_amended.2.1 _ (Or.inr (by simp))

/-- Helper: `bind` on a successful `Except` computation. -/
theorem exceptBind_ok {α β : Type _} (x : α) (f : α → Except String β) :
    (Except.ok x >>= f) = f x := rfl

/-- Helper: `bind` on a failed `Except` computation. -/
theorem exceptBind_error {α β : Type _} (e : String) (f : α → Except String β) :
    ((Except.error e : Except String α) >>= f) = Except.error e := rfl

/-- Helper: inversion of `mapExcept` on a two-element list. -/
theorem mapExcept_pair {α β : Type _} {f : α → Except String β} {a b : α} {out : List β} :
    mapExcept f [a, b] = .ok out ↔
    ∃ x y, f a = .ok x ∧ f b = .ok y ∧ out = [x, y] := by
  constructor
  · intro h
    cases hfa : f a with
    | error e =>
      rw [show mapExcept f [a, b] = Except.error e by
        simp [mapExcept, hfa, Except.bind, exceptBind_ok, exceptBind_error]] at h
      cases h
    | ok x =>
      cases hfb : f b with
      | error e =>
        rw [show mapExcept f [a, b] = Except.error e by
          simp [mapExcept, hfa, hfb, Except.bind, exceptBind_ok, exceptBind_error]] at h
        cases h
      | ok y =>
        rw [show mapExcept f [a, b] = Except.ok [x, y] by
          simp [mapExcept, hfa, hfb, Except.bind, exceptBind_ok, exceptBind_error]] at h
        cases h
        exact ⟨x, y, rfl, rfl, rfl⟩
  · rintro ⟨x, y, hx, hy, rfl⟩
    simp [mapExcept, hx, hy, Except.bind, exceptBind_ok, exceptBind_error]

/-- Helper: inversion of one fusion-loop iteration. -/
theorem fuse_rowcol_ok {s1 s2 : List IdentifiedObject} {rc : ℕ × ℕ}
    {fo : IdentifiedObject} :
    fuse_rowcol s1 s2 rc = .ok fo ↔
    ∃ a b, s1[rc.1]? = some a ∧ s2[rc.2]? = some b ∧ fo = fusePair a b := by
  constructor
  · intro h
    cases ha : s1[rc.1]? with
    | none =>
      rw [show fuse_rowcol s1 s2 rc = Except.error "IndexError" by
        simp [fuse_rowcol, lookupIdx, ha, Except.bind, exceptBind_ok, exceptBind_error]] at h
      cases h
    | some a =>
      cases hb : s2[rc.2]? with
      | none =>
        rw [show fuse_rowcol s1 s2 rc = Except.error "IndexError" by
          simp [fuse_rowcol, lookupIdx, ha, hb, Except.bind, exceptBind_ok, exceptBind_error]] at h
        cases h
      | some b =>
        rw [show fuse_rowcol s1 s2 rc = Except.ok (fusePair a b) by
          simp [fuse_rowcol, lookupIdx, ha, hb, Except.bind, exceptBind_ok, exceptBind_error]] at h
        cases h
        exact ⟨a, b, rfl, rfl, rfl⟩
  · rintro ⟨a, b, ha, hb, rfl⟩
    simp [fuse_rowcol, lookupIdx, ha, hb, Except.bind, exceptBind_ok, exceptBind_error]

/-- Helper: with both keys present, the associator reduces to the guarded
assignment loop. -/
theorem match_and_fuse_reduce (m : ℤ → Option (List IdentifiedObject))
    (s1 s2 : List IdentifiedObject) (h1 : m 1 = some s1) (h2 : m 2 = some s2) :
    match_and_fuse_identified_objects m =
      if 2 < s1.length ∨ 2 < s2.length then .error "IndexError"
      else mapExcept (fuse_rowcol s1 s2) (linear_sum_assignment (costMatrix s1 s2)) := by
  unfold match_and_fuse_identified_objects
  rw [h1, h2]

/-- Helper: full inversion of a successful association with both keys
present: each list has exactly two detections and the output is the fusion
of either the diagonal or the anti-diagonal pairing, in row order. -/
theorem match_and_fuse_ok_inversion (m : ℤ → Option (List IdentifiedObject))
    (s1 s2 out : List IdentifiedObject)
    (h1 : m 1 = some s1) (h2 : m 2 = some s2)
    (h : match_and_fuse_identified_objects m = .ok out) :
    ∃ a0 a1 b0 b1, s1 = [a0, a1] ∧ s2 = [b0, b1] ∧
      (out = [fusePair a0 b0, fusePair a1 b1] ∨
       out = [fusePair a0 b1, fusePair a1 b0]) := by
  rw [match_and_fuse_reduce m s1 s2 h1 h2] at h
  by_cases hlen : 2 < s1.length ∨ 2 < s2.length
  · rw [if_pos hlen] at h
    cases h
  · rw [if_neg hlen] at h
    push_neg at hlen
    unfold linear_sum_assignment at h
    by_cases hcase : costMatrix s1 s2 0 0 + costMatrix s1 s2 1 1 ≤
        costMatrix s1 s2 0 1 + costMatrix s1 s2 1 0
    · rw [if_pos hcase] at h
      obtain ⟨x, y, hx, hy, rfl⟩ := mapExcept_pair.mp h
      obtain ⟨a0, b0, ha0, hb0, rfl⟩ := fuse_rowcol_ok.mp hx
      obtain ⟨a1, b1, ha1, hb1, rfl⟩ := fuse_rowcol_ok.mp hy
      have hl1 : s1.length = 2 := by
        obtain ⟨hlt, -⟩ := List.getElem?_eq_some.mp ha1
        omega
      have hl2 : s2.length = 2 := by
        obtain ⟨hlt, -⟩ := List.getElem?_eq_some.mp hb1
        omega
      obtain ⟨x0, x1, rfl⟩ := List.length_eq_two.mp hl1
      obtain ⟨y0, y1, rfl⟩ := List.length_eq_two.mp hl2
      simp at ha0 ha1 hb0 hb1
      subst ha0 ha1 hb0 hb1
      exact ⟨x0, x1, y0, y1, rfl, rfl, Or.inl rfl⟩
    · rw [if_neg hcase] at h
      obtain ⟨x, y, hx, hy, rfl⟩ := mapExcept_pair.mp h
      obtain ⟨a0, b1, ha0, hb1, rfl⟩ := fuse_rowcol_ok.mp hx
      obtain ⟨a1, b0, ha1, hb0, rfl⟩ := fuse_rowcol_ok.mp hy
      have hl1 : s1.length = 2 := by
        obtain ⟨hlt, -⟩ := List.getElem?_eq_some.mp ha1
        omega
      have hl2 : s2.length = 2 := by
        obtain ⟨hlt, -⟩ := List.getElem?_eq_some.mp hb1
        omega
      obtain ⟨x0, x1, rfl⟩ := List.length_eq_two.mp hl1
      obtain ⟨y0, y1, rfl⟩ := List.length_eq_two.mp hl2
      simp at ha0 ha1 hb0 hb1
      subst ha0 ha1 hb0 hb1
      exact ⟨x0, x1, y0, y1, rfl, rfl, Or.inr rfl⟩

/-- C3: for every cost matrix built by the associator from the two sensors'
detection lists, the assignment returned by the solver has total cost no
larger than every complete one-to-one assignment of size 2 (every
permutation of `Fin 2`). -/
theorem assignment_minimises_total_cost
    (s1 s2 : List IdentifiedObject) (σ : Equiv.Perm (Fin 2)) :
    pairs_cost (costMatrix s1 s2) (linear_sum_assignment (costMatrix s1 s2)) ≤
      costMatrix s1 s2 0 (σ 0).val + costMatrix s1 s2 1 (σ 1).val := by
  set c := costMatrix s1 s2 with hc
  have hne : (σ 0).val ≠ (σ 1).val := fun hv =>
    absurd (σ.injective (Fin.ext hv)) (by decide)
  have h0 := (σ 0).isLt
  have h1 := (σ 1).isLt
  have hσ : ((σ 0).val = 0 ∧ (σ 1).val = 1) ∨ ((σ 0).val = 1 ∧ (σ 1).val = 0) := by omega
  unfold linear_sum_assignment
  by_cases hcase : c 0 0 + c 1 1 ≤ c 0 1 + c 1 0 <;>
    rcases hσ with ⟨ha, hb⟩ | ⟨ha, hb⟩ <;>
      simp [hcase, pairs_cost, ha, hb] <;> linarith

/-- C4: every fused detection produced by the associator has as location the
component-wise arithmetic mean of the locations of its matched pair
(one detection from each sensor), north and east averaged independently. -/
theorem fused_location_componentwise_average
    (m : ℤ → Option (List IdentifiedObject)) (s1 s2 out : List IdentifiedObject)
    (h1 : m 1 = some s1) (h2 : m 2 = some s2)
    (h : match_and_fuse_identified_objects m = .ok out) :
    ∀ fo ∈ out, ∃ a ∈ s1, ∃ b ∈ s2,
      fo.object_location_north_east.north
        = (a.object_location_north_east.north + b.object_location_north_east.north) / 2 ∧
      fo.object_location_north_east.east
        = (a.object_location_north_east.east + b.object_location_north_east.east) / 2 := by
  obtain ⟨a0, a1, b0, b1, rfl, rfl, hcase⟩ :=
    match_and_fuse_ok_inversion m _ _ out h1 h2 h
  intro fo hfo
  rcases hcase with rfl | rfl
  · simp only [List.mem_cons, List.not_mem_nil, or_false] at hfo
    rcases hfo with rfl | rfl
    · exact ⟨a0, by simp, b0, by simp, rfl, rfl⟩
    · exact ⟨a1, by simp, b1, by simp, rfl, rfl⟩
  · simp only [List.mem_cons, List.not_mem_nil, or_false] at hfo
    rcases hfo with rfl | rfl
    · exact ⟨a0, by simp, b1, by simp, rfl, rfl⟩
    · exact ⟨a1, by simp, b0, by simp, rfl, rfl⟩

/-- A concrete detection used by witnesses. -/
def witObjA : IdentifiedObject :=
  { bounding_box := { x := 0, y := 0, width := 1, height := 1 }
    class_name := "tank", object_location_north_east := { north := 0, east := 0 } }

/-- A second concrete detection used by witnesses (same location). -/
def witObjB : IdentifiedObject :=
  { bounding_box := { x := 5, y := 5, width := 2, height := 2 }
    class_name := "car", object_location_north_east := { north := 0, east := 0 } }

/-- A concrete two-key sensor mapping used by witnesses. -/
def witMapping : ℤ → Option (List IdentifiedObject) :=
  fun k => if k = 1 then some [witObjA, witObjB]
    else if k = 2 then some [witObjA, witObjB] else none

/-- Helper: the witness mapping associates successfully, with the diagonal
pairing (all four costs are equal, so the solver's `≤` test succeeds). -/
theorem witMapping_assoc_ok :
    match_and_fuse_identified_objects witMapping =
      .ok [fusePair witObjA witObjA, fusePair witObjB witObjB] := by
  rw [match_and_fuse_reduce witMapping [witObjA, witObjB] [witObjA, witObjB] rfl rfl,
    if_neg (by norm_num)]
  unfold linear_sum_assignment
  rw [if_pos (by norm_num [costMatrix, distance_metric, witObjA, witObjB])]
  exact mapExcept_pair.mpr ⟨_, _, fuse_rowcol_ok.mpr ⟨witObjA, witObjA, rfl, rfl, rfl⟩,
    fuse_rowcol_ok.mpr ⟨witObjB, witObjB, rfl, rfl, rfl⟩, rfl⟩

/-- Witness for C4 at the concrete witness mapping, instantiated at the
first fused detection. -/
theorem fused_location_componentwise_average_witness :
    ∃ a ∈ [witObjA, witObjB], ∃ b ∈ [witObjA, witObjB],
      (fusePair witObjA witObjA).object_location_north_east.north
        = (a.object_location_north_east.north + b.object_location_north_east.north) / 2 ∧
      (fusePair witObjA witObjA).object_location_north_east.east
        = (a.object_location_north_east.east + b.object_location_north_east.east) / 2 :=
  fused_location_componentwise_average witMapping [witObjA, witObjB] [witObjA, witObjB]
    [fusePair witObjA witObjA, fusePair witObjB witObjB] rfl rfl witMapping_assoc_ok
    (fusePair witObjA witObjA) (by simp)

/-- C8: every fused detection is sensor 1's record with only the location
replaced — class label and bounding box come from sensor 1's record — and
the output list is in row order: the `k`-th fused detection corresponds to
the `k`-th detection of sensor 1's original list. -/
theorem fused_carries_sensor1_fields_in_row_order
    (m : ℤ → Option (List IdentifiedObject)) (s1 s2 out : List IdentifiedObject)
    (h1 : m 1 = some s1) (h2 : m 2 = some s2)
    (h : match_and_fuse_identified_objects m = .ok out) :
    out.length = 2 ∧
    ∀ k, k < 2 → ∃ a fo, s1[k]? = some a ∧ out[k]? = some fo ∧
      fo.class_name = a.class_name ∧ fo.bounding_box = a.bounding_box := by
  obtain ⟨a0, a1, b0, b1, rfl, rfl, hcase⟩ :=
    match_and_fuse_ok_inversion m _ _ out h1 h2 h
  rcases hcase with rfl | rfl
  · refine ⟨rfl, ?_⟩
    intro k hk
    interval_cases k
    · exact ⟨a0, fusePair a0 b0, rfl, rfl, rfl, rfl⟩
    · exact ⟨a1, fusePair a1 b1, rfl, rfl, rfl, rfl⟩
  · refine ⟨rfl, ?_⟩
    intro k hk
    interval_cases k
    · exact ⟨a0, fusePair a0 b1, rfl, rfl, rfl, rfl⟩
    · exact ⟨a1, fusePair a1 b0, rfl, rfl, rfl, rfl⟩

/-- Witness for C8 at the concrete witness mapping. -/
theorem fused_carries_sensor1_fields_witness :
    ([fusePair witObjA witObjA, fusePair witObjB witObjB] : List IdentifiedObject).length = 2 ∧
    ∀ k, k < 2 → ∃ a fo, ([witObjA, witObjB] : List IdentifiedObject)[k]? = some a ∧
      [fusePair witObjA witObjA, fusePair witObjB witObjB][k]? = some fo ∧
      fo.class_name = a.class_name ∧ fo.bounding_box = a.bounding_box :=
  fused_carries_sensor1_fields_in_row_order witMapping [witObjA, witObjB]
    [witObjA, witObjB] [fusePair witObjA witObjA, fusePair witObjB witObjB]
    rfl rfl witMapping_assoc_ok

/-- C9: the associator completes without error exactly when the mapping has
the literal keys 1 and 2 and each maps to a list of exactly two detections;
any mapping lacking a key, or with a list of any other length, fails
(missing-key or index error), because the cost matrix is hard-coded 2×2 and
the keys are hard-coded. -/
theorem association_succeeds_iff (m : ℤ → Option (List IdentifiedObject)) :
    (∃ out, match_and_fuse_identified_objects m = .ok out) ↔
    (∃ s1 s2, m 1 = some s1 ∧ m 2 = some s2 ∧ s1.length = 2 ∧ s2.length = 2) := by
  constructor
  · rintro ⟨out, h⟩
    cases hm1 : m 1 with
    | none =>
      rw [show match_and_fuse_identified_objects m = .error "KeyError" from by
        unfold match_and_fuse_identified_objects
        rw [hm1]] at h
      cases h
    | some s1 =>
      cases hm2 : m 2 with
      | none =>
        rw [show match_and_fuse_identified_objects m = .error "KeyError" from by
          unfold match_and_fuse_identified_objects
          rw [hm1, hm2]] at h
        cases h
      | some s2 =>
        obtain ⟨a0, a1, b0, b1, rfl, rfl, -⟩ :=
          match_and_fuse_ok_inversion m s1 s2 out hm1 hm2 h
        exact ⟨[a0, a1], [b0, b1], rfl, rfl, rfl, rfl⟩
  · rintro ⟨s1, s2, h1, h2, hl1, hl2⟩
    obtain ⟨a0, a1, rfl⟩ := List.length_eq_two.mp hl1
    obtain ⟨b0, b1, rfl⟩ := List.length_eq_two.mp hl2
    rw [match_and_fuse_reduce m _ _ h1 h2, if_neg (by simp)]
    unfold linear_sum_assignment
    by_cases hc : costMatrix [a0, a1] [b0, b1] 0 0 + costMatrix [a0, a1] [b0, b1] 1 1 ≤
        costMatrix [a0, a1] [b0, b1] 0 1 + costMatrix [a0, a1] [b0, b1] 1 0
    · rw [if_pos hc]
      exact ⟨_, mapExcept_pair.mpr ⟨_, _, fuse_rowcol_ok.mpr ⟨a0, b0, rfl, rfl, rfl⟩,
        fuse_rowcol_ok.mpr ⟨a1, b1, rfl, rfl, rfl⟩, rfl⟩⟩
    · rw [if_neg hc]
      exact ⟨_, mapExcept_pair.mpr ⟨_, _, fuse_rowcol_ok.mpr ⟨a0, b1, rfl, rfl, rfl⟩,
        fuse_rowcol_ok.mpr ⟨a1, b0, rfl, rfl, rfl⟩, rfl⟩⟩

/-- Helper: the projector's closed form, with the combined bearing angle
abstracted. -/
theorem bearing_and_distance_eq (s : Sensor) (f : Frame) (o : IdentifiedObject) (r θ : ℝ)
    (h : deg2rad (s.bearing +
      (((o.bounding_box.x : ℝ) + (o.bounding_box.width : ℝ) / 2) / (f.imageShape1 : ℝ)
        * f.fov_horizontal - f.fov_horizontal / 2)) = θ) :
    bearing_and_distance_to_north_east s f o r =
      { north := r * Real.cos θ + s.location_north_east.north
        east := r * Real.sin θ + s.location_north_east.east } := by
  simp only [bearing_and_distance_to_north_east]
  rw [h]

/-- Helper: two-sided rational bounds on `cos` from the quartic Taylor bound. -/
theorem cos_bounds_of (x lo hi clo chi : ℝ)
    (hx1 : lo ≤ x) (hx2 : x ≤ hi) (h0 : 0 ≤ lo) (h1 : hi ≤ 1)
    (hclo : clo ≤ 1 - hi ^ 2 / 2 - hi ^ 4 * (5 / 96))
    (hchi : 1 - lo ^ 2 / 2 + hi ^ 4 * (5 / 96) ≤ chi) :
    clo ≤ Real.cos x ∧ Real.cos x ≤ chi := by
  have hx0 : 0 ≤ x := le_trans h0 hx1
  have hxa : |x| ≤ 1 := by
    rw [abs_of_nonneg hx0]
    linarith
  have hb := Real.cos_bound hxa
  rw [abs_of_nonneg hx0, abs_le] at hb
  have h2 : x ^ 2 ≤ hi ^ 2 := pow_le_pow_left₀ hx0 hx2 2
  have h2a : lo ^ 2 ≤ x ^ 2 := pow_le_pow_left₀ h0 hx1 2
  have h4 : x ^ 4 ≤ hi ^ 4 := pow_le_pow_left₀ hx0 hx2 4
  have h40 : 0 ≤ x ^ 4 := by positivity
  constructor <;> linarith [hb.1, hb.2]

/-- Helper: two-sided rational bounds on `sin` from the quartic Taylor bound. -/
theorem sin_bounds_of (x lo hi slo shi : ℝ)
    (hx1 : lo ≤ x) (hx2 : x ≤ hi) (h0 : 0 ≤ lo) (h1 : hi ≤ 1)
    (hslo : slo ≤ lo - hi ^ 3 / 6 - hi ^ 4 * (5 / 96))
    (hshi : hi - lo ^ 3 / 6 + hi ^ 4 * (5 / 96) ≤ shi) :
    slo ≤ Real.sin x ∧ Real.sin x ≤ shi := by
  have hx0 : 0 ≤ x := le_trans h0 hx1
  have hxa : |x| ≤ 1 := by
    rw [abs_of_nonneg hx0]
    linarith
  have hb := Real.sin_bound hxa
  rw [abs_of_nonneg hx0, abs_le] at hb
  have h3 : x ^ 3 ≤ hi ^ 3 := pow_le_pow_left₀ hx0 hx2 3
  have h3a : lo ^ 3 ≤ x ^ 3 := pow_le_pow_left₀ h0 hx1 3
  have h4 : x ^ 4 ≤ hi ^ 4 := pow_le_pow_left₀ hx0 hx2 4
  have h40 : 0 ≤ x ^ 4 := by positivity
  constructor <;> linarith [hb.1, hb.2]

/-- Helper: a rational upper bound on `tan` for small positive arguments. -/
theorem tan_upper_of (x hi thi : ℝ) (hx1 : 0 < x) (hx2 : x ≤ hi) (hhi : hi ≤ 1 / 10)
    (hthi : hi ≤ thi * (1 - hi ^ 2 / 2 - hi ^ 4 * (5 / 96))) :
    Real.tan x ≤ thi := by
  have hx0 : 0 ≤ x := hx1.le
  have hhi0 : 0 < hi := lt_of_lt_of_le hx1 hx2
  have hxa : |x| ≤ 1 := by
    rw [abs_of_nonneg hx0]
    linarith
  have hb := Real.cos_bound hxa
  rw [abs_of_nonneg hx0, abs_le] at hb
  have h2 : x ^ 2 ≤ hi ^ 2 := pow_le_pow_left₀ hx0 hx2 2
  have h4 : x ^ 4 ≤ hi ^ 4 := pow_le_pow_left₀ hx0 hx2 4
  have hcmin : 1 - hi ^ 2 / 2 - hi ^ 4 * (5 / 96) ≤ Real.cos x := by linarith [hb.1]
  have hhi2 : hi ^ 2 ≤ (1 / 10) ^ 2 := pow_le_pow_left₀ hhi0.le hhi 2
  have hhi4 : hi ^ 4 ≤ (1 / 10) ^ 4 := pow_le_pow_left₀ hhi0.le hhi 4
  have hcminpos : 0 < 1 - hi ^ 2 / 2 - hi ^ 4 * (5 / 96) := by nlinarith
  have hcpos : 0 < Real.cos x := lt_of_lt_of_le hcminpos hcmin
  have hsin : Real.sin x < x := Real.sin_lt hx1
  have hthipos : 0 ≤ thi := by nlinarith
  rw [Real.tan_eq_sin_div_cos, div_le_iff₀ hcpos]
  have hmul : thi * (1 - hi ^ 2 / 2 - hi ^ 4 * (5 / 96)) ≤ thi * Real.cos x :=
    mul_le_mul_of_nonneg_left hcmin hthipos
  linarith

/-- Helper: interval arithmetic for a product of nonnegative quantities. -/
theorem mul_interval (a b la ha2 lb hb2 lo hi : ℝ)
    (h1 : la ≤ a) (h2 : a ≤ ha2) (h3 : lb ≤ b) (h4 : b ≤ hb2)
    (h5 : 0 ≤ la) (h6 : 0 ≤ lb)
    (h7 : lo ≤ la * lb) (h8 : ha2 * hb2 ≤ hi) :
    lo ≤ a * b ∧ a * b ≤ hi := by
  have hb0 : 0 ≤ b := le_trans h6 h3
  have ha0 : 0 ≤ a := le_trans h5 h1
  constructor
  · have : la * lb ≤ a * b := mul_le_mul h1 h3 h6 ha0
    linarith
  · have : a * b ≤ ha2 * hb2 := mul_le_mul h2 h4 hb0 (le_trans ha0 h2)
    linarith

/-- Helper: a square is bounded by the square of an interval's radius. -/
theorem sq_le_of_bounds (a lo hi m : ℝ) (h1 : lo ≤ a) (h2 : a ≤ hi)
    (h3 : -m ≤ lo) (h4 : hi ≤ m) : a ^ 2 ≤ m ^ 2 := by
  nlinarith [mul_nonneg (by linarith : (0:ℝ) ≤ m - a) (by linarith : (0:ℝ) ≤ m + a)]

/-- Helper: rational bounds on the tank distance estimate. -/
theorem dT_bounds : 106.89 ≤ dT ∧ dT ≤ 106.96 := by
  have ha : deg2rad (((180 : ℤ) : ℝ) / ((1920 : ℕ) : ℝ) * 40) / 2 = Real.pi / 96 := by
    unfold deg2rad
    push_cast
    ring
  have hpi1 := Real.pi_gt_d6
  have hpi2 := Real.pi_lt_d6
  unfold dT
  rw [ha]
  have hx1 : (0.0327249 : ℝ) < Real.pi / 96 := by linarith
  have hx2 : Real.pi / 96 ≤ 0.03272493 := by linarith
  have hxpos : (0 : ℝ) < Real.pi / 96 := by linarith
  have hxlt : Real.pi / 96 < Real.pi / 2 := by linarith [Real.pi_pos]
  have htlo : (0.0327249 : ℝ) < Real.tan (Real.pi / 96) :=
    lt_trans hx1 (Real.lt_tan hxpos hxlt)
  have hthi : Real.tan (Real.pi / 96) ≤ 0.032743 :=
    tan_upper_of _ _ _ hxpos hx2 (by norm_num) (by norm_num)
  constructor
  · rw [le_div_iff₀ (by linarith : (0:ℝ) < 2 * Real.tan (Real.pi / 96))]
    linarith
  · rw [div_le_iff₀ (by linarith : (0:ℝ) < 2 * Real.tan (Real.pi / 96))]
    linarith

/-- Helper: rational bounds on sensor 1's car distance estimate. -/
theorem dC1_bounds : 160.41 ≤ dC1 ∧ dC1 ≤ 160.43 := by
  have ha : deg2rad (((60 : ℤ) : ℝ) / ((1920 : ℕ) : ℝ) * 40) / 2 = Real.pi / 288 := by
    unfold deg2rad
    push_cast
    ring
  have hpi1 := Real.pi_gt_d6
  have hpi2 := Real.pi_lt_d6
  unfold dC1
  rw [ha]
  have hx1 : (0.0109083 : ℝ) < Real.pi / 288 := by linarith
  have hx2 : Real.pi / 288 ≤ 0.01090831 := by linarith
  have hxpos : (0 : ℝ) < Real.pi / 288 := by linarith
  have hxlt : Real.pi / 288 < Real.pi / 2 := by linarith [Real.pi_pos]
  have htlo : (0.0109083 : ℝ) < Real.tan (Real.pi / 288) :=
    lt_trans hx1 (Real.lt_tan hxpos hxlt)
  have hthi : Real.tan (Real.pi / 288) ≤ 0.0109095 :=
    tan_upper_of _ _ _ hxpos hx2 (by norm_num) (by norm_num)
  constructor
  · rw [le_div_iff₀ (by linarith : (0:ℝ) < 2 * Real.tan (Real.pi / 288))]
    linarith
  · rw [div_le_iff₀ (by linarith : (0:ℝ) < 2 * Real.tan (Real.pi / 288))]
    linarith

/-- Helper: rational bounds on sensor 2's car distance estimate. -/
theorem dC2_bounds : 137.49 ≤ dC2 ∧ dC2 ≤ 137.52 := by
  have ha : deg2rad (((70 : ℤ) : ℝ) / ((1920 : ℕ) : ℝ) * 40) / 2 = 7 * Real.pi / 1728 := by
    unfold deg2rad
    push_cast
    ring
  have hpi1 := Real.pi_gt_d6
  have hpi2 := Real.pi_lt_d6
  unfold dC2
  rw [ha]
  have hx1 : (0.0127263 : ℝ) < 7 * Real.pi / 1728 := by linarith
  have hx2 : 7 * Real.pi / 1728 ≤ 0.01272637 := by linarith
  have hxpos : (0 : ℝ) < 7 * Real.pi / 1728 := by linarith
  have hxlt : 7 * Real.pi / 1728 < Real.pi / 2 := by linarith [Real.pi_pos]
  have htlo : (0.0127263 : ℝ) < Real.tan (7 * Real.pi / 1728) :=
    lt_trans hx1 (Real.lt_tan hxpos hxlt)
  have hthi : Real.tan (7 * Real.pi / 1728) ≤ 0.012728 :=
    tan_upper_of _ _ _ hxpos hx2 (by norm_num) (by norm_num)
  constructor
  · rw [le_div_iff₀ (by linarith : (0:ℝ) < 2 * Real.tan (7 * Real.pi / 1728))]
    linarith
  · rw [div_le_iff₀ (by linarith : (0:ℝ) < 2 * Real.tan (7 * Real.pi / 1728))]
    linarith

/-- Helper: closed form of sensor 1's projected tank location
(combined bearing 26.6° + 5/24° = 3217/120° = 3217π/21600 rad). -/
theorem locT1_eq :
    locT1 = { north := dT * Real.cos (3217 * Real.pi / 21600)
              east := dT * Real.sin (3217 * Real.pi / 21600) } := by
  have hang : deg2rad (sensor_1.bearing +
      (((gtT1.bounding_box.x : ℝ) + (gtT1.bounding_box.width : ℝ) / 2) /
        ((Sensor.next_tick sensor_1).imageShape1 : ℝ)
        * (Sensor.next_tick sensor_1).fov_horizontal -
        (Sensor.next_tick sensor_1).fov_horizontal / 2)) = 3217 * Real.pi / 21600 := by
    show deg2rad ((26.6 : ℝ) +
      ((((880 : ℤ) : ℝ) + ((180 : ℤ) : ℝ) / 2) / ((1920 : ℕ) : ℝ) * 40 - 40 / 2)) = _
    unfold deg2rad
    push_cast
    rw [show (26.6 : ℝ) = 133 / 5 by norm_num]
    ring
  unfold locT1
  rw [bearing_and_distance_eq _ _ _ _ _ hang]
  show LocationNE.mk (dT * Real.cos (3217 * Real.pi / 21600) + 0)
    (dT * Real.sin (3217 * Real.pi / 21600) + 0) = _
  simp only [LocationNE.mk.injEq]
  constructor <;> ring_nf

/-- Helper: closed form of sensor 1's projected car location
(combined bearing 26.6° − 65/24° = 2867/120° = 2867π/21600 rad). -/
theorem locC1_eq :
    locC1 = { north := dC1 * Real.cos (2867 * Real.pi / 21600)
              east := dC1 * Real.sin (2867 * Real.pi / 21600) } := by
  have hang : deg2rad (sensor_1.bearing +
      (((gtC1.bounding_box.x : ℝ) + (gtC1.bounding_box.width : ℝ) / 2) /
        ((Sensor.next_tick sensor_1).imageShape1 : ℝ)
        * (Sensor.next_tick sensor_1).fov_horizontal -
        (Sensor.next_tick sensor_1).fov_horizontal / 2)) = 2867 * Real.pi / 21600 := by
    show deg2rad ((26.6 : ℝ) +
      ((((800 : ℤ) : ℝ) + ((60 : ℤ) : ℝ) / 2) / ((1920 : ℕ) : ℝ) * 40 - 40 / 2)) = _
    unfold deg2rad
    push_cast
    rw [show (26.6 : ℝ) = 133 / 5 by norm_num]
    ring
  unfold locC1
  rw [bearing_and_distance_eq _ _ _ _ _ hang]
  show LocationNE.mk (dC1 * Real.cos (2867 * Real.pi / 21600) + 0)
    (dC1 * Real.sin (2867 * Real.pi / 21600) + 0) = _
  simp only [LocationNE.mk.injEq]
  constructor <;> ring_nf

/-- Helper: closed form of sensor 2's projected car location
(combined bearing 275/48° = 55π/1728 rad; sensor 2 sits at east 50). -/
theorem locC2_eq :
    locC2 = { north := dC2 * Real.cos (55 * Real.pi / 1728)
              east := dC2 * Real.sin (55 * Real.pi / 1728) + 50 } := by
  have hang : deg2rad (sensor_2.bearing +
      (((gtC2.bounding_box.x : ℝ) + (gtC2.bounding_box.width : ℝ) / 2) /
        ((Sensor.next_tick sensor_2).imageShape1 : ℝ)
        * (Sensor.next_tick sensor_2).fov_horizontal -
        (Sensor.next_tick sensor_2).fov_horizontal / 2)) = 55 * Real.pi / 1728 := by
    show deg2rad ((0 : ℝ) +
      ((((1200 : ℤ) : ℝ) + ((70 : ℤ) : ℝ) / 2) / ((1920 : ℕ) : ℝ) * 40 - 40 / 2)) = _
    unfold deg2rad
    push_cast
    ring
  unfold locC2
  rw [bearing_and_distance_eq _ _ _ _ _ hang]
  show LocationNE.mk (dC2 * Real.cos (55 * Real.pi / 1728) + 0)
    (dC2 * Real.sin (55 * Real.pi / 1728) + 50) = _
  simp only [LocationNE.mk.injEq]
  constructor <;> ring_nf

/-- Helper: closed form of sensor 2's projected tank location
(combined bearing −5/24° = −π/864 rad; sensor 2 sits at east 50). -/
theorem locT2_eq :
    locT2 = { north := dT * Real.cos (Real.pi / 864)
              east := 50 - dT * Real.sin (Real.pi / 864) } := by
  have hang : deg2rad (sensor_2.bearing +
      (((gtT2.bounding_box.x : ℝ) + (gtT2.bounding_box.width : ℝ) / 2) /
        ((Sensor.next_tick sensor_2).imageShape1 : ℝ)
        * (Sensor.next_tick sensor_2).fov_horizontal -
        (Sensor.next_tick sensor_2).fov_horizontal / 2)) = -(Real.pi / 864) := by
    show deg2rad ((0 : ℝ) +
      ((((860 : ℤ) : ℝ) + ((180 : ℤ) : ℝ) / 2) / ((1920 : ℕ) : ℝ) * 40 - 40 / 2)) = _
    unfold deg2rad
    push_cast
    ring
  unfold locT2
  rw [bearing_and_distance_eq _ _ _ _ _ hang, Real.cos_neg, Real.sin_neg]
  show LocationNE.mk (dT * Real.cos (Real.pi / 864) + 0)
    (dT * -Real.sin (Real.pi / 864) + 50) = _
  simp only [LocationNE.mk.injEq]
  constructor <;> ring_nf

/-- Helper: bounds on `cos` at sensor 1's tank bearing. -/
theorem cosT1_bounds :
    0.88804 ≤ Real.cos (3217 * Real.pi / 21600) ∧
    Real.cos (3217 * Real.pi / 21600) ≤ 0.89304 :=
  cos_bounds_of (3217 * Real.pi / 21600) 0.4678935 0.4678938 0.88804 0.89304
    (by linarith [Real.pi_gt_d6]) (by linarith [Real.pi_lt_d6])
    (by norm_num) (by norm_num) (by norm_num) (by norm_num)

/-- Helper: bounds on `sin` at sensor 1's tank bearing. -/
theorem sinT1_bounds :
    0.44832 ≤ Real.sin (3217 * Real.pi / 21600) ∧
    Real.sin (3217 * Real.pi / 21600) ≤ 0.45332 :=
  sin_bounds_of (3217 * Real.pi / 21600) 0.4678935 0.4678938 0.44832 0.45332
    (by linarith [Real.pi_gt_d6]) (by linarith [Real.pi_lt_d6])
    (by norm_num) (by norm_num) (by norm_num) (by norm_num)

/-- Helper: bounds on `cos` at sensor 1's car bearing. -/
theorem cosC1_bounds :
    0.91148 ≤ Real.cos (2867 * Real.pi / 21600) ∧
    Real.cos (2867 * Real.pi / 21600) ≤ 0.91464 :=
  cos_bounds_of (2867 * Real.pi / 21600) 0.4169881 0.4169883 0.91148 0.91464
    (by linarith [Real.pi_gt_d6]) (by linarith [Real.pi_lt_d6])
    (by norm_num) (by norm_num) (by norm_num) (by norm_num)

/-- Helper: bounds on `sin` at sensor 1's car bearing. -/
theorem sinC1_bounds :
    0.40332 ≤ Real.sin (2867 * Real.pi / 21600) ∧
    Real.sin (2867 * Real.pi / 21600) ≤ 0.40648 :=
  sin_bounds_of (2867 * Real.pi / 21600) 0.4169881 0.4169883 0.40332 0.40648
    (by linarith [Real.pi_gt_d6]) (by linarith [Real.pi_lt_d6])
    (by norm_num) (by norm_num) (by norm_num) (by norm_num)

/-- Helper: bounds on `cos` at sensor 2's car bearing. -/
theorem cosC2_bounds :
    0.99499 ≤ Real.cos (55 * Real.pi / 1728) ∧ Real.cos (55 * Real.pi / 1728) ≤ 0.99501 :=
  cos_bounds_of (55 * Real.pi / 1728) 0.0999928 0.0999929 0.99499 0.99501
    (by linarith [Real.pi_gt_d6]) (by linarith [Real.pi_lt_d6])
    (by norm_num) (by norm_num) (by norm_num) (by norm_num)

/-- Helper: bounds on `sin` at sensor 2's car bearing. -/
theorem sinC2_bounds :
    0.09982 ≤ Real.sin (55 * Real.pi / 1728) ∧ Real.sin (55 * Real.pi / 1728) ≤ 0.09984 :=
  sin_bounds_of (55 * Real.pi / 1728) 0.0999928 0.0999929 0.09982 0.09984
    (by linarith [Real.pi_gt_d6]) (by linarith [Real.pi_lt_d6])
    (by norm_num) (by norm_num) (by norm_num) (by norm_num)

/-- Helper: bounds on `cos` at sensor 2's tank bearing magnitude. -/
theorem cosT2_bounds :
    0.999993 ≤ Real.cos (Real.pi / 864) ∧ Real.cos (Real.pi / 864) ≤ 0.999994 :=
  cos_bounds_of (Real.pi / 864) 0.0036361 0.00363611 0.999993 0.999994
    (by linarith [Real.pi_gt_d6]) (by linarith [Real.pi_lt_d6])
    (by norm_num) (by norm_num) (by norm_num) (by norm_num)

/-- Helper: bounds on `sin` at sensor 2's tank bearing magnitude. -/
theorem sinT2_bounds :
    0.003636 ≤ Real.sin (Real.pi / 864) ∧ Real.sin (Real.pi / 864) ≤ 0.0036362 :=
  sin_bounds_of (Real.pi / 864) 0.0036361 0.00363611 0.003636 0.0036362
    (by linarith [Real.pi_gt_d6]) (by linarith [Real.pi_lt_d6])
    (by norm_num) (by norm_num) (by norm_num) (by norm_num)

/-- Helper: rational bounds on the four projected locations' coordinates. -/
theorem locT1_bounds :
    (94.92 ≤ locT1.north ∧ locT1.north ≤ 95.52) ∧
    (47.92 ≤ locT1.east ∧ locT1.east ≤ 48.49) := by
  rw [locT1_eq]
  obtain ⟨hd1, hd2⟩ := dT_bounds
  obtain ⟨hc1, hc2⟩ := cosT1_bounds
  obtain ⟨hs1, hs2⟩ := sinT1_bounds
  exact ⟨mul_interval _ _ 106.89 106.96 0.88804 0.89304 94.92 95.52
      hd1 hd2 hc1 hc2 (by norm_num) (by norm_num) (by norm_num) (by norm_num),
    mul_interval _ _ 106.89 106.96 0.44832 0.45332 47.92 48.49
      hd1 hd2 hs1 hs2 (by norm_num) (by norm_num) (by norm_num) (by norm_num)⟩

/-- Helper: rational bounds on sensor 1's projected car coordinates. -/
theorem locC1_bounds :
    (146.21 ≤ locC1.north ∧ locC1.north ≤ 146.74) ∧
    (64.69 ≤ locC1.east ∧ locC1.east ≤ 65.22) := by
  rw [locC1_eq]
  obtain ⟨hd1, hd2⟩ := dC1_bounds
  obtain ⟨hc1, hc2⟩ := cosC1_bounds
  obtain ⟨hs1, hs2⟩ := sinC1_bounds
  exact ⟨mul_interval _ _ 160.41 160.43 0.91148 0.91464 146.21 146.74
      hd1 hd2 hc1 hc2 (by norm_num) (by norm_num) (by norm_num) (by norm_num),
    mul_interval _ _ 160.41 160.43 0.40332 0.40648 64.69 65.22
      hd1 hd2 hs1 hs2 (by norm_num) (by norm_num) (by norm_num) (by norm_num)⟩

/-- Helper: rational bounds on sensor 2's projected car coordinates. -/
theorem locC2_bounds :
    (136.80 ≤ locC2.north ∧ locC2.north ≤ 136.86) ∧
    (63.72 ≤ locC2.east ∧ locC2.east ≤ 63.73) := by
  rw [locC2_eq]
  obtain ⟨hd1, hd2⟩ := dC2_bounds
  obtain ⟨hc1, hc2⟩ := cosC2_bounds
  obtain ⟨hs1, hs2⟩ := sinC2_bounds
  have hn := mul_interval _ _ 137.49 137.52 0.99499 0.99501 136.80 136.86
    hd1 hd2 hc1 hc2 (by norm_num) (by norm_num) (by norm_num) (by norm_num)
  have he := mul_interval _ _ 137.49 137.52 0.09982 0.09984 13.72 13.73
    hd1 hd2 hs1 hs2 (by norm_num) (by norm_num) (by norm_num) (by norm_num)
  constructor
  · exact hn
  · show 63.72 ≤ dC2 * Real.sin (55 * Real.pi / 1728) + 50 ∧
      dC2 * Real.sin (55 * Real.pi / 1728) + 50 ≤ 63.73
    constructor <;> [linarith [he.1]; linarith [he.2]]

/-- Helper: rational bounds on sensor 2's projected tank coordinates. -/
theorem locT2_bounds :
    (106.88 ≤ locT2.north ∧ locT2.north ≤ 106.96) ∧
    (49.61 ≤ locT2.east ∧ locT2.east ≤ 49.62) := by
  rw [locT2_eq]
  obtain ⟨hd1, hd2⟩ := dT_bounds
  obtain ⟨hc1, hc2⟩ := cosT2_bounds
  obtain ⟨hs1, hs2⟩ := sinT2_bounds
  have hn := mul_interval _ _ 106.89 106.96 0.999993 0.999994 106.88 106.96
    hd1 hd2 hc1 hc2 (by norm_num) (by norm_num) (by norm_num) (by norm_num)
  have he := mul_interval _ _ 106.89 106.96 0.003636 0.0036362 0.3886 0.389
    hd1 hd2 hs1 hs2 (by norm_num) (by norm_num) (by norm_num) (by norm_num)
  constructor
  · exact hn
  · show 49.61 ≤ 50 - dT * Real.sin (Real.pi / 864) ∧
      50 - dT * Real.sin (Real.pi / 864) ≤ 49.62
    constructor <;> [linarith [he.2]; linarith [he.1]]

/-- Helper: in the reference scenario the anti-diagonal pairing (tank↔tank,
car↔car) is strictly cheaper, so the solver's diagonal test fails. -/
theorem scenario_cost_key :
    ¬(costMatrix [objT1, objC1] [objC2, objT2] 0 0 +
        costMatrix [objT1, objC1] [objC2, objT2] 1 1 ≤
      costMatrix [objT1, objC1] [objC2, objT2] 0 1 +
        costMatrix [objT1, objC1] [objC2, objT2] 1 0) := by
  have e00 : costMatrix [objT1, objC1] [objC2, objT2] 0 0 = distance_metric objT1 objC2 := rfl
  have e01 : costMatrix [objT1, objC1] [objC2, objT2] 0 1 = distance_metric objT1 objT2 := rfl
  have e10 : costMatrix [objT1, objC1] [objC2, objT2] 1 0 = distance_metric objC1 objC2 := rfl
  have e11 : costMatrix [objT1, objC1] [objC2, objT2] 1 1 = distance_metric objC1 objT2 := rfl
  rw [e00, e01, e10, e11]
  obtain ⟨⟨hT1n1, hT1n2⟩, hT1e1, hT1e2⟩ := locT1_bounds
  obtain ⟨⟨hC1n1, hC1n2⟩, hC1e1, hC1e2⟩ := locC1_bounds
  obtain ⟨⟨hC2n1, hC2n2⟩, hC2e1, hC2e2⟩ := locC2_bounds
  obtain ⟨⟨hT2n1, hT2n2⟩, hT2e1, hT2e2⟩ := locT2_bounds
  have hobjT1 : objT1.object_location_north_east = locT1 := rfl
  have hobjC1 : objC1.object_location_north_east = locC1 := rfl
  have hobjC2 : objC2.object_location_north_east = locC2 := rfl
  have hobjT2 : objT2.object_location_north_east = locT2 := rfl
  have h01 : distance_metric objT1 objT2 ≤ 13 := by
    unfold distance_metric
    rw [hobjT1, hobjT2]
    refine Real.sqrt_le_iff.mpr ⟨by norm_num, ?_⟩
    have hn := sq_le_of_bounds (locT2.north - locT1.north) 11.36 12.04 12.04
      (by linarith) (by linarith) (by norm_num) (by norm_num)
    have he := sq_le_of_bounds (locT2.east - locT1.east) 1.12 1.7 1.7
      (by linarith) (by linarith) (by norm_num) (by norm_num)
    nlinarith [hn, he]
  have h10 : distance_metric objC1 objC2 ≤ 11 := by
    unfold distance_metric
    rw [hobjC1, hobjC2]
    refine Real.sqrt_le_iff.mpr ⟨by norm_num, ?_⟩
    have hn := sq_le_of_bounds (locC2.north - locC1.north) (-9.94) (-9.35) 9.95
      (by linarith) (by linarith) (by norm_num) (by norm_num)
    have he := sq_le_of_bounds (locC2.east - locC1.east) (-1.5) (-0.96) 1.5
      (by linarith) (by linarith) (by norm_num) (by norm_num)
    nlinarith [hn, he]
  have h00 : (24 : ℝ) < distance_metric objT1 objC2 := by
    unfold distance_metric
    rw [hobjT1, hobjC2]
    refine (Real.lt_sqrt (by norm_num)).mpr ?_
    have h1 : (41.28 : ℝ) ≤ locC2.north - locT1.north := by linarith
    have hn : (41.28 : ℝ) ^ 2 ≤ (locC2.north - locT1.north) ^ 2 := by
      nlinarith [mul_nonneg (by linarith : (0:ℝ) ≤ locC2.north - locT1.north - 41.28)
        (by linarith : (0:ℝ) ≤ locC2.north - locT1.north + 41.28)]
    nlinarith [sq_nonneg (locC2.east - locT1.east), hn]
  have h11 : (0 : ℝ) ≤ distance_metric objC1 objT2 := Real.sqrt_nonneg _
  intro hcon
  linarith

/-- Helper: sensor 1's detections localise to `[objT1, objC1]`. -/
theorem s1_localised :
    identify_and_localise ground_truth_objects (Sensor.next_tick sensor_1) sensor_1 =
      .ok [objT1, objC1] := by
  have hmT : monocular_distance_from_object_prior gtT1 (Sensor.next_tick sensor_1) = .ok dT :=
    monocular_distance_eq gtT1 (Sensor.next_tick sensor_1) 7 rfl
  have hmC : monocular_distance_from_object_prior gtC1 (Sensor.next_tick sensor_1) = .ok dC1 :=
    monocular_distance_eq gtC1 (Sensor.next_tick sensor_1) 3.5 rfl
  have hgt : identify_and_localise ground_truth_objects (Sensor.next_tick sensor_1) sensor_1 =
      mapExcept (fun o => do
        let d ← monocular_distance_from_object_prior o (Sensor.next_tick sensor_1)
        pure { o with object_location_north_east :=
          bearing_and_distance_to_north_east sensor_1 (Sensor.next_tick sensor_1) o d })
        [gtT1, gtC1] := by
    unfold identify_and_localise
    rfl
  rw [hgt]
  refine mapExcept_pair.mpr ⟨objT1, objC1, ?_, ?_, rfl⟩
  · show (do
      let d ← monocular_distance_from_object_prior gtT1 (Sensor.next_tick sensor_1)
      pure { gtT1 with object_location_north_east :=
        bearing_and_distance_to_north_east sensor_1 (Sensor.next_tick sensor_1) gtT1 d }) =
      Except.ok objT1
    rw [hmT, exceptBind_ok]
    rfl
  · show (do
      let d ← monocular_distance_from_object_prior gtC1 (Sensor.next_tick sensor_1)
      pure { gtC1 with object_location_north_east :=
        bearing_and_distance_to_north_east sensor_1 (Sensor.next_tick sensor_1) gtC1 d }) =
      Except.ok objC1
    rw [hmC, exceptBind_ok]
    rfl

/-- Helper: sensor 2's detections localise to `[objC2, objT2]`. -/
theorem s2_localised :
    identify_and_localise ground_truth_objects (Sensor.next_tick sensor_2) sensor_2 =
      .ok [objC2, objT2] := by
  have hmC : monocular_distance_from_object_prior gtC2 (Sensor.next_tick sensor_2) = .ok dC2 :=
    monocular_distance_eq gtC2 (Sensor.next_tick sensor_2) 3.5 rfl
  have hmT : monocular_distance_from_object_prior gtT2 (Sensor.next_tick sensor_2) = .ok dT :=
    monocular_distance_eq gtT2 (Sensor.next_tick sensor_2) 7 rfl
  have hgt : identify_and_localise ground_truth_objects (Sensor.next_tick sensor_2) sensor_2 =
      mapExcept (fun o => do
        let d ← monocular_distance_from_object_prior o (Sensor.next_tick sensor_2)
        pure { o with object_location_north_east :=
          bearing_and_distance_to_north_east sensor_2 (Sensor.next_tick sensor_2) o d })
        [gtC2, gtT2] := by
    unfold identify_and_localise
    rfl
  rw [hgt]
  refine mapExcept_pair.mpr ⟨objC2, objT2, ?_, ?_, rfl⟩
  · show (do
      let d ← monocular_distance_from_object_prior gtC2 (Sensor.next_tick sensor_2)
      pure { gtC2 with object_location_north_east :=
        bearing_and_distance_to_north_east sensor_2 (Sensor.next_tick sensor_2) gtC2 d }) =
      Except.ok objC2
    rw [hmC, exceptBind_ok]
    rfl
  · show (do
      let d ← monocular_distance_from_object_prior gtT2 (Sensor.next_tick sensor_2)
      pure { gtT2 with object_location_north_east :=
        bearing_and_distance_to_north_east sensor_2 (Sensor.next_tick sensor_2) gtT2 d }) =
      Except.ok objT2
    rw [hmT, exceptBind_ok]
    rfl

/-- C5: in the reference scenario (sensor 1 at (0,0) bearing 26.6°, sensor 2
at (0,50) bearing 0°, FOV 40°×22.5°, image 1920×1080, the four given
bounding boxes, priors tank = 7, car = 3.5), estimation and projection
succeed for both sensors, and association matches tank with tank and car
with car (the anti-diagonal pairing) and produces exactly 2 fused
detections. -/
theorem scenario_end_to_end :
    identify_and_localise ground_truth_objects (Sensor.next_tick sensor_1) sensor_1 =
      .ok [objT1, objC1] ∧
    identify_and_localise ground_truth_objects (Sensor.next_tick sensor_2) sensor_2 =
      .ok [objC2, objT2] ∧
    objT1.class_name = "tank" ∧ objC1.class_name = "car" ∧
    objC2.class_name = "car" ∧ objT2.class_name = "tank" ∧
    match_and_fuse_identified_objects scenario_mapping =
      .ok [fusePair objT1 objT2, fusePair objC1 objC2] ∧
    ([fusePair objT1 objT2, fusePair objC1 objC2] : List IdentifiedObject).length = 2 := by
  refine ⟨s1_localised, s2_localised, rfl, rfl, rfl, rfl, ?_, rfl⟩
  have hm1 : scenario_mapping 1 = some [objT1, objC1] := by
    show (if (1 : ℤ) = 1 then
        (identify_and_localise ground_truth_objects (Sensor.next_tick sensor_1)
          sensor_1).toOption
      else if (1 : ℤ) = 2 then
        (identify_and_localise ground_truth_objects (Sensor.next_tick sensor_2)
          sensor_2).toOption
      else none) = some [objT1, objC1]
    rw [if_pos rfl, s1_localised]
    rfl
  have hm2 : scenario_mapping 2 = some [objC2, objT2] := by
    show (if (2 : ℤ) = 1 then
        (identify_and_localise ground_truth_objects (Sensor.next_tick sensor_1)
          sensor_1).toOption
      else if (2 : ℤ) = 2 then
        (identify_and_localise ground_truth_objects (Sensor.next_tick sensor_2)
          sensor_2).toOption
      else none) = some [objC2, objT2]
    rw [if_neg (by norm_num), if_pos rfl, s2_localised]
    rfl
  rw [match_and_fuse_reduce scenario_mapping [objT1, objC1] [objC2, objT2] hm1 hm2,
    if_neg (by simp)]
  unfold linear_sum_assignment
  rw [if_neg scenario_cost_key]
  exact mapExcept_pair.mpr ⟨_, _, fuse_rowcol_ok.mpr ⟨objT1, objT2, rfl, rfl, rfl⟩,
    fuse_rowcol_ok.mpr ⟨objC1, objC2, rfl, rfl, rfl⟩, rfl⟩

end SensorFusion
